import Mathlib

/-!
Verification of the approval-and-publishing workflow engine of the AIO-News
repository.  The definitions below are a shallow embedding of
`core/approval_queue.py`, the approval/publishing paths of
`agents/social_media_manager.py`, the timing configuration of
`config/settings.py`, and the status accessors of `service.py`.
Timestamps are natural numbers (seconds); the directory of JSON files that
backs `ApprovalQueue` is an association list keyed by (story_id, platform);
the external boundaries (Telegram, image generation, Cloudinary upload,
platform publishing) are oracle parameters.
-/

namespace AIONews

/-- The `status` field of a persisted approval request
(`PENDING`, `APPROVED`, `REJECTED`, `FAILED`, `POSTED`). -/
inductive Status where
  | PENDING
  | APPROVED
  | REJECTED
  | FAILED
  | POSTED
  deriving DecidableEq, Repr

/-- One persisted approval request, mirroring the JSON object written by
`ApprovalQueue.add_request`.  `message_ids` is the platform-to-Telegram
message id dictionary; `updated_at` is absent (`none`) until the first
update operation touches the record. -/
structure Request where
  story_id : String
  platform : String
  workflow_id : String
  content : String
  sub_content : String
  images : List String
  videos : List String
  message_ids : List (String × Nat)
  created_at : Nat
  timeout_at : Nat
  status : Status
  updated_at : Option Nat
  deriving DecidableEq, Repr

/-- A record is stored in the file `{story_id}_{platform}.json`; the store is
the directory, one entry per (story_id, platform) key. -/
abbrev Key := String × String

abbrev Store := List (Key × Request)

/-- Reading the file for a key (`os.path.exists` + `json.load`). -/
def lookupReq : Store → Key → Option Request
  | [], _ => none
  | (k, r) :: rest, key => if k = key then some r else lookupReq rest key

/-- Writing the file for a key: replaces the record when the key is present,
creates the file otherwise (`open(file_path, "w")`). -/
def setReq : Store → Key → Request → Store
  | [], key, r => [(key, r)]
  | (k, r0) :: rest, key, r =>
      if k = key then (key, r) :: rest else (k, r0) :: setReq rest key r

/-- Dictionary lookup `d.get(p)` on the `message_ids` dictionary. -/
def lookupNat : List (String × Nat) → String → Option Nat
  | [], _ => none
  | (k, v) :: rest, key => if k = key then some v else lookupNat rest key

/-- Python truthiness of an optional message id: `None` and `0` are falsy. -/
def truthyNat : Option Nat → Bool
  | none => false
  | some m => m ≠ 0

/-- Character-list core of `str.startswith`. -/
def startsWithChars : List Char → List Char → Bool
  | [], _ => true
  | _ :: _, [] => false
  | c :: cs, d :: ds => c = d && startsWithChars cs ds

/-- Python `a.startswith(pre)`. -/
def startsWithPy (a pre : String) : Bool := startsWithChars pre.toList a.toList

/-! ## `core/approval_queue.py` -/

/-- `ApprovalQueue.add_request`: builds the request dictionary with
`status = "PENDING"` and `timeout_at = created_at + timeout_minutes`
(the timedelta, expressed in seconds), then writes the file for the key
unconditionally (mode `"w"`), overwriting any record already stored there. -/
def add_request (s : Store) (story_id platform workflow_id content sub_content : String)
    (images videos : List String) (message_ids : List (String × Nat))
    (created_at timeout_minutes : Nat) : Store :=
  setReq s (story_id, platform)
    { story_id := story_id
      platform := platform
      workflow_id := workflow_id
      content := content
      sub_content := sub_content
      images := images
      videos := videos
      message_ids := message_ids
      created_at := created_at
      timeout_at := created_at + 60 * timeout_minutes
      status := Status.PENDING
      updated_at := none }

/-- `ApprovalQueue.update_status`: read-modify-write of the `status` and
`updated_at` fields; returns the updated record, or `none` when the file
does not exist. -/
def update_status (s : Store) (story_id platform : String) (status : Status)
    (now : Nat) : Store × Option Request :=
  match lookupReq s (story_id, platform) with
  | none => (s, none)
  | some r =>
      let r2 := { r with status := status, updated_at := some now }
      (setReq s (story_id, platform) r2, some r2)

/-- `ApprovalQueue.update_media`: appends `media_path` to the `images` or
`videos` list according to the `media_type` string (any other string leaves
both lists alone), stamps `updated_at`, and writes the record back. -/
def update_media (s : Store) (story_id platform media_type media_path : String)
    (now : Nat) : Store × Option Request :=
  match lookupReq s (story_id, platform) with
  | none => (s, none)
  | some r =>
      let r1 :=
        if media_type = "images" then { r with images := r.images ++ [media_path] }
        else if media_type = "videos" then { r with videos := r.videos ++ [media_path] }
        else r
      let r2 := { r1 with updated_at := some now }
      (setReq s (story_id, platform) r2, some r2)

/-- `ApprovalQueue.get_request`. -/
def get_request (s : Store) (story_id platform : String) : Option Request :=
  lookupReq s (story_id, platform)

/-- The records of the store, in directory-listing order. -/
def storeRequests (s : Store) : List Request :=
  s.map Prod.snd

/-- The `approved_posts` list built by `get_next_approved_post`: every stored
record whose status is `APPROVED`. -/
def approvedRequests (s : Store) : List Request :=
  (storeRequests s).filter (fun r => r.status = Status.APPROVED)

/-- One insertion step of sorting by the `created_at` key. -/
def insertByCreated (r : Request) : List Request → List Request
  | [] => [r]
  | x :: xs =>
      if r.created_at ≤ x.created_at then r :: x :: xs
      else x :: insertByCreated r xs

/-- `approved_posts.sort(key=lambda x: created_at)`. -/
def sortByCreated : List Request → List Request
  | [] => []
  | x :: xs => insertByCreated x (sortByCreated xs)

/-- `ApprovalQueue.get_next_approved_post`: collect the `APPROVED` records,
sort them by `created_at`, and return the first, or `None` when there are
no approved records. -/
def get_next_approved_post (s : Store) : Option Request :=
  match sortByCreated (approvedRequests s) with
  | [] => none
  | r :: _ => some r

/-- `ApprovalQueue.get_timed_out_requests`: the stored records with
`status == "PENDING"` and `current_time >= timeout_at`. -/
def get_timed_out_requests (s : Store) (now : Nat) : List Request :=
  (storeRequests s).filter (fun r => r.status = Status.PENDING ∧ r.timeout_at ≤ now)

/-! ## `agents/social_media_manager.py`

The observable calls to external boundaries are recorded as an effect trace;
the boundaries themselves (Telegram message updates, the AI image generator,
the per-platform publish stub) are oracle parameters. -/

/-- One observable side effect of the social media manager. -/
inductive Effect where
  | notifyApproved (platform : String)
  | notifyRejected (platform : String)
  | notifyGenerating (platform : String)
  | notifyGenFailed (platform : String)
  | notifySending (platform story_id : String)
  | notifyTimeout (platform : String)
  | fallbackGen (story_id platform : String)
  | publish (platform content : String) (images videos : List String)
  deriving DecidableEq, Repr

/-- Whether an effect is a call to the publish boundary `_post_to_platform`. -/
def Effect.isPublish : Effect → Bool
  | Effect.publish _ _ _ _ => true
  | _ => false

/-- A Python exception message. -/
abbrev PyExc := String

/-- Result of running one agent coroutine: the store it leaves behind, the
trace of boundary calls it made, and the exception it propagated, if any. -/
structure Outcome where
  store : Store
  trace : List Effect
  exc : Option PyExc
  deriving DecidableEq, Repr

/-- The publish boundary `_post_to_platform(platform, content, images,
videos)`: returns a success flag or raises. -/
abbrev PublishOracle := String → String → List String → List String → Except PyExc Bool

/-- The media-fallback boundary `ImageGenerator.generate_social_image(headline,
summary, story_id, platform, workflow_id)`: a hosted image URL, or `none` for
a falsy result. -/
abbrev GenOracle := String → String → String → String → String → Option String

/-- The overlay boundary `ImageGenerator.apply_headline_to_image(
image_path_or_url, story_id, platform, headline, subheadline, workflow_id)`:
the processed URL, or `none` for a falsy result. -/
abbrev OverlayOracle := String → String → String → String → String → String → Option String

/-- The Cloudinary upload of `_handle_media_add` for non-first media:
`upload(media_path, folder=news/processed/{workflow_id}/{story_id}/{platform},
resource_type=...)`; yields the `secure_url`, or `none` for a falsy result. -/
abbrev UploadOracle := String → String → String → String → String → Option String

/-- The fixed platform list `self.platforms` of `SocialMediaManagerAgent`. -/
def platforms : List String := ["twitter", "instagram", "youtube"]

/-- The `platforms_to_process` computation of `handle_telegram_callback`:
the full platform list for the `_all` actions, the single given platform
otherwise, and nothing when no platform can be determined. -/
def callbackPlatforms (platform : Option String) (action : String) : List String :=
  if action = "approve_all" ∨ action = "decline_all" then platforms
  else
    match platform with
    | some p => [p]
    | none => []

/-- The body of the per-platform loop of `handle_telegram_callback`: skip the
platform when the record is missing or not `PENDING`; on an `approve*` action
set the status to `APPROVED` and edit the Telegram message when a truthy
message id exists; on a `decline*` or `reject*` action set it to `REJECTED`
likewise; any other action does nothing. -/
def handleCallbackOne (s : Store) (story_id p action : String) (now : Nat) : Outcome :=
  match lookupReq s (story_id, p) with
  | none => ⟨s, [], none⟩
  | some r =>
      if r.status ≠ Status.PENDING then ⟨s, [], none⟩
      else if startsWithPy action "approve" then
        ⟨(update_status s story_id p Status.APPROVED now).1,
         if truthyNat (lookupNat r.message_ids p) then [Effect.notifyApproved p] else [],
         none⟩
      else if startsWithPy action "decline" ∨ startsWithPy action "reject" then
        ⟨(update_status s story_id p Status.REJECTED now).1,
         if truthyNat (lookupNat r.message_ids p) then [Effect.notifyRejected p] else [],
         none⟩
      else ⟨s, [], none⟩

/-- The loop of `handle_telegram_callback` over `platforms_to_process`. -/
def callback_go (story_id action : String) (now : Nat) :
    List String → Store → List Effect → Outcome
  | [], s, acc => ⟨s, acc, none⟩
  | p :: rest, s, acc =>
      let o := handleCallbackOne s story_id p action now
      callback_go story_id action now rest o.store (acc ++ o.trace)

/-- `SocialMediaManagerAgent.handle_telegram_callback`. -/
def handle_telegram_callback (s : Store) (story_id : String)
    (platform : Option String) (action : String) (now : Nat) : Outcome :=
  callback_go story_id action now (callbackPlatforms platform action) s []

/-- `SocialMediaManagerAgent._execute_approved_post`: re-reads the record;
when it exists and is `APPROVED`, calls the publish boundary and writes
`POSTED` on success and `FAILED` on a failure return.  There is no exception
handler: a raise from the publish call propagates with no status written. -/
def execute_approved_post (pub : PublishOracle) (s : Store) (story_id p : String)
    (now : Nat) : Outcome :=
  match lookupReq s (story_id, p) with
  | none => ⟨s, [], none⟩
  | some r =>
      if r.status = Status.APPROVED then
        match pub p r.content r.images r.videos with
        | Except.error e =>
            ⟨s, [Effect.publish p r.content r.images r.videos], some e⟩
        | Except.ok success =>
            ⟨(update_status s story_id p
                (if success then Status.POSTED else Status.FAILED) now).1,
             [Effect.publish p r.content r.images r.videos], none⟩
      else ⟨s, [], none⟩

/-- Tail of `SocialMediaManagerAgent._handle_approval` after the media check:
set the status to `APPROVED`, run `_execute_approved_post`, and finally edit
the Telegram message — unless the publish raised, in which case the raise
propagates before the final message edit. -/
def handle_approval_post (pub : PublishOracle) (s : Store) (story_id p : String)
    (now : Nat) (pre : List Effect) : Outcome :=
  match execute_approved_post pub
      (update_status s story_id p Status.APPROVED now).1 story_id p now with
  | ⟨s2, tr, some e⟩ => ⟨s2, pre ++ tr, some e⟩
  | ⟨s2, tr, none⟩ => ⟨s2, pre ++ tr ++ [Effect.notifySending p story_id], none⟩

/-- `SocialMediaManagerAgent._handle_approval`: returns when the record is
missing; when the record has no images and no videos, notifies and invokes
the AI media fallback — a falsy result marks the record `FAILED`, notifies
the failure and returns without any publish call, a truthy URL is appended
to `images`; in every remaining case the record is marked `APPROVED` and the
publish is executed immediately. -/
def handle_approval (gen : GenOracle) (pub : PublishOracle) (s : Store)
    (story_id p : String) (now : Nat) : Outcome :=
  match lookupReq s (story_id, p) with
  | none => ⟨s, [], none⟩
  | some r =>
      if r.images = [] ∧ r.videos = [] then
        match gen r.content r.sub_content story_id p r.workflow_id with
        | some url =>
            handle_approval_post pub
              (update_media s story_id p "images" url now).1 story_id p now
              [Effect.notifyGenerating p, Effect.fallbackGen story_id p]
        | none =>
            ⟨(update_status s story_id p Status.FAILED now).1,
             [Effect.notifyGenerating p, Effect.fallbackGen story_id p,
              Effect.notifyGenFailed p],
             none⟩
      else handle_approval_post pub s story_id p now []

/-- The loop of `check_timeouts` over the timed-out requests: a platform with
no truthy message id is skipped; otherwise the timeout message is posted and
`_handle_approval` runs; a raise from it aborts the remaining iterations. -/
def check_timeouts_go (gen : GenOracle) (pub : PublishOracle) (now : Nat) :
    List Request → Store → List Effect → Outcome
  | [], s, acc => ⟨s, acc, none⟩
  | r :: rest, s, acc =>
      if truthyNat (lookupNat r.message_ids r.platform) then
        match handle_approval gen pub s r.story_id r.platform now with
        | ⟨s2, tr, some e⟩ =>
            ⟨s2, acc ++ Effect.notifyTimeout r.platform :: tr, some e⟩
        | ⟨s2, tr, none⟩ =>
            check_timeouts_go gen pub now rest s2
              (acc ++ Effect.notifyTimeout r.platform :: tr)
      else check_timeouts_go gen pub now rest s acc

/-- `SocialMediaManagerAgent.check_timeouts`. -/
def check_timeouts (gen : GenOracle) (pub : PublishOracle) (s : Store)
    (now : Nat) : Outcome :=
  check_timeouts_go gen pub now (get_timed_out_requests s now) s []

/-- `SocialMediaManagerAgent.handle_webhook_upload`: returns when no record
exists; the first image (resource type `image` with an empty `images` list)
goes through the headline overlay, keeping the original URL when the overlay
result is falsy; every other media is stored with its URL unmodified.  The
media kind is `videos` for resource type `video` and `images` otherwise. -/
def handle_webhook_upload (ov : OverlayOracle) (s : Store)
    (story_id p media_url resource_type workflow_id : String) (now : Nat) : Store :=
  match lookupReq s (story_id, p) with
  | none => s
  | some r =>
      let final :=
        if resource_type = "image" ∧ r.images = [] then
          match ov media_url story_id p r.content r.sub_content workflow_id with
          | some u => u
          | none => media_url
        else media_url
      (update_media s story_id p
        (if resource_type = "video" then "videos" else "images") final now).1

/-- `SocialMediaManagerAgent._handle_media_add`: returns when no record
exists.  On the first image the code calls `apply_headline_to_image` without
the required `workflow_id` argument, so the call raises `TypeError`, the
surrounding `try`/`except` swallows it, and nothing is appended.  Any other
media is uploaded to Cloudinary and its `secure_url` is appended when
truthy. -/
def handle_media_add (up : UploadOracle) (s : Store)
    (story_id p media_path media_type workflow_id : String) (now : Nat) : Store :=
  match lookupReq s (story_id, p) with
  | none => s
  | some r =>
      if media_type = "image" ∧ r.images = [] then s
      else
        match up media_path (if media_type = "video" then "video" else "image")
            workflow_id story_id p with
        | some u =>
            (update_media s story_id p
              (if media_type = "video" then "videos" else "images") u now).1
        | none => s

/-! ## `config/settings.py` and the Posting Scheduler -/

/-- `WORKFLOW_TIMING["min_posting_delay_seconds"]`. -/
def min_posting_delay_seconds : Nat := 10 * 60

/-- `WORKFLOW_TIMING["max_posting_delay_seconds"]`. -/
def max_posting_delay_seconds : Nat := 25 * 60

/-- `WORKFLOW_TIMING["posting_scheduler_interval_seconds"]`. -/
def posting_scheduler_interval_seconds : Nat := 2 * 60

/-- Modelled from the spec: the Posting Scheduler loop of spec section 4.4 is
not part of the sources — only its configuration (`WORKFLOW_TIMING` in
`config/settings.py`) and the store query `get_next_approved_post` are.
Per the spec, after a terminal outcome is recorded the loop sleeps a duration
drawn uniformly at random from the configured `[minDelay, maxDelay]` window,
so the next publish attempt starts `delay` seconds after the previous one,
the sampled `delay` lying in that window. -/
def scheduler_next_attempt (prev delay : Nat) : Nat := prev + delay

/-! ## Attribute lookup for `get_posting_status` / `get_service_status` -/

/-- The attribute names an `ApprovalQueue` instance carries: the two fields
set in `__init__` and the methods of the class body of
`core/approval_queue.py`. -/
def approvalQueueAttrs : List String :=
  ["storage_path", "timeout_minutes",
   "add_request", "update_status", "update_media", "get_request",
   "get_next_approved_post", "get_timed_out_requests"]

/-- A Python attribute error carrying the missing attribute name. -/
inductive PyAttrError where
  | attributeError (attr : String)
  deriving DecidableEq, Repr

/-- Python attribute resolution on an `ApprovalQueue` instance. -/
def getattrQueue (name : String) : Except PyAttrError Unit :=
  if name ∈ approvalQueueAttrs then Except.ok () else Except.error (PyAttrError.attributeError name)

/-- `SocialMediaManagerAgent.get_posting_status`: its body first evaluates
`self.approval_queue.get_all_pending()` and then `self.approval_queue.queue`
while building the status dictionary; the dictionary itself is only built
when both attribute lookups succeed. -/
def get_posting_status : Except PyAttrError Unit := do
  let _ ← getattrQueue "get_all_pending"
  let _ ← getattrQueue "queue"
  Except.ok ()

/-- The `pending_approvals` entry of `NewsAgencyService.get_service_status`
(`service.py`): it evaluates `self.approval_queue.get_all_pending()`. -/
def get_service_status_pending : Except PyAttrError Unit := do
  let _ ← getattrQueue "get_all_pending"
  Except.ok ()

/-! ## Derived predicates -/

/-- A key on which one pass of the `handle_telegram_callback` loop body is a
no-op: the record is absent, or no longer `PENDING`, or the action string
matches none of the recognised prefixes. -/
def SettledAt (s : Store) (story_id action p : String) : Prop :=
  match lookupReq s (story_id, p) with
  | none => True
  | some r =>
      r.status ≠ Status.PENDING ∨
      (¬ startsWithPy action "approve" = true ∧
       ¬ startsWithPy action "decline" = true ∧
       ¬ startsWithPy action "reject" = true)

/-! ## Concrete instances used by witnesses and counterexamples -/

/-- First creation for the key (`story_id = "s1"`, `platform = "twitter"`). -/
def c1_first : Store :=
  add_request [] "s1" "twitter" "wf1" "A" "sumA" [] [] [] 0 30

/-- Second creation attempt for the same key, with different content. -/
def c1_second : Store :=
  add_request c1_first "s1" "twitter" "wf2" "B" "sumB" [] [] [] 5 30

/-- An `APPROVED` record created at time 50, stored first. -/
def c3_r9 : Request :=
  { story_id := "s9", platform := "twitter", workflow_id := "w", content := "c9",
    sub_content := "", images := [], videos := [], message_ids := [],
    created_at := 50, timeout_at := 1850, status := Status.APPROVED,
    updated_at := none }

/-- An `APPROVED` record created at time 20, stored second. -/
def c3_r7 : Request :=
  { story_id := "s7", platform := "twitter", workflow_id := "w", content := "c7",
    sub_content := "", images := [], videos := [], message_ids := [],
    created_at := 20, timeout_at := 1820, status := Status.APPROVED,
    updated_at := none }

/-- A `PENDING` record created earliest of all, at time 5. -/
def c3_r5 : Request :=
  { story_id := "s5", platform := "twitter", workflow_id := "w", content := "c5",
    sub_content := "", images := [], videos := [], message_ids := [],
    created_at := 5, timeout_at := 1805, status := Status.PENDING,
    updated_at := none }

/-- A store with two `APPROVED` records where the later-listed one was
created earlier, plus a `PENDING` record created earliest of all. -/
def c3_store : Store :=
  [(("s9", "twitter"), c3_r9), (("s7", "twitter"), c3_r7), (("s5", "twitter"), c3_r5)]

/-- A record that is already `APPROVED` (for example because the timeout
monitor auto-approved it) when a duplicate approval click arrives. -/
def c4_req : Request :=
  { story_id := "s1", platform := "twitter", workflow_id := "w", content := "hd",
    sub_content := "sm", images := ["i1"], videos := [], message_ids := [("twitter", 3)],
    created_at := 0, timeout_at := 1800, status := Status.APPROVED,
    updated_at := some 40 }

/-- The one-record store holding `c4_req`. -/
def c4_store : Store := [(("s1", "twitter"), c4_req)]

/-- An `APPROVED` record with media, ready for a publish attempt. -/
def c5_req : Request :=
  { story_id := "s1", platform := "twitter", workflow_id := "w", content := "hd",
    sub_content := "sm", images := ["i1"], videos := [], message_ids := [("twitter", 3)],
    created_at := 0, timeout_at := 1800, status := Status.APPROVED,
    updated_at := some 40 }

/-- The one-record store holding `c5_req`. -/
def c5_store : Store := [(("s1", "twitter"), c5_req)]

/-- A publish boundary that raises. -/
def pub_raises : PublishOracle := fun _ _ _ _ => Except.error "boom"

/-- A publish boundary that returns failure. -/
def pub_false : PublishOracle := fun _ _ _ _ => Except.ok false

/-- A publish boundary that returns success. -/
def pub_true : PublishOracle := fun _ _ _ _ => Except.ok true

/-- A media-fallback boundary whose generation always fails. -/
def gen_none : GenOracle := fun _ _ _ _ _ => none

/-- A media-fallback boundary that always yields the same hosted URL. -/
def gen_some : GenOracle := fun _ _ _ _ _ => some "ai.png"

/-- A `PENDING` record with media whose decision deadline (10) has already
elapsed at observation time 20. -/
def c2_req : Request :=
  { story_id := "s2", platform := "twitter", workflow_id := "w", content := "hd2",
    sub_content := "sm2", images := ["i1"], videos := [], message_ids := [("twitter", 7)],
    created_at := 0, timeout_at := 10, status := Status.PENDING,
    updated_at := none }

/-- The one-record store holding `c2_req`. -/
def c2_store : Store := [(("s2", "twitter"), c2_req)]

/-- A `PENDING` record without any media, past its deadline. -/
def c6_req : Request :=
  { story_id := "s6", platform := "twitter", workflow_id := "w", content := "hd6",
    sub_content := "sm6", images := [], videos := [], message_ids := [("twitter", 9)],
    created_at := 0, timeout_at := 10, status := Status.PENDING,
    updated_at := none }

/-- The one-record store holding `c6_req`. -/
def c6_store : Store := [(("s6", "twitter"), c6_req)]

/-- An overlay boundary whose transform always fails. -/
def ov_fail : OverlayOracle := fun _ _ _ _ _ _ => none

/-- An overlay boundary that always yields the same processed URL. -/
def ov_some : OverlayOracle := fun _ _ _ _ _ _ => some "ov.jpg"

/-- An upload boundary that always yields the same hosted URL. -/
def up_some : UploadOracle := fun _ _ _ _ _ => some "up.jpg"

/-- A `PENDING` record with no images yet. -/
def c7_req : Request :=
  { story_id := "s7x", platform := "twitter", workflow_id := "w", content := "hd7",
    sub_content := "sm7", images := [], videos := [], message_ids := [("twitter", 4)],
    created_at := 0, timeout_at := 1800, status := Status.PENDING,
    updated_at := none }

/-- The one-record store holding `c7_req`. -/
def c7_store : Store := [(("s7x", "twitter"), c7_req)]

/-- A `PENDING` record that already has one image. -/
def c7b_req : Request :=
  { story_id := "s7y", platform := "twitter", workflow_id := "w", content := "hd7b",
    sub_content := "sm7b", images := ["x1"], videos := [], message_ids := [("twitter", 4)],
    created_at := 0, timeout_at := 1800, status := Status.PENDING,
    updated_at := none }

/-- The one-record store holding `c7b_req`. -/
def c7b_store : Store := [(("s7y", "twitter"), c7b_req)]

/-! ## Store lemmas -/

theorem lookup_set_same (s : Store) (k : Key) (r : Request) :
    lookupReq (setReq s k r) k = some r := by
  induction s with
  | nil => simp [setReq, lookupReq]
  | cons hd tl ih =>
      obtain ⟨k0, r0⟩ := hd
      by_cases h : k0 = k
      · simp [setReq, h, lookupReq]
      · simp [setReq, h, lookupReq, ih]

theorem lookup_set_ne (s : Store) (k k2 : Key) (r : Request) (h : k2 ≠ k) :
    lookupReq (setReq s k r) k2 = lookupReq s k2 := by
  have h2 : k ≠ k2 := fun e => h e.symm
  induction s with
  | nil => simp [setReq, lookupReq, h2]
  | cons hd tl ih =>
      obtain ⟨k0, r0⟩ := hd
      by_cases hk : k0 = k
      · subst hk
        simp [setReq, lookupReq, h2]
      · simp only [setReq, if_neg hk, lookupReq]
        by_cases hk2 : k0 = k2
        · simp [hk2]
        · simp [hk2, ih]

theorem update_status_store (s : Store) (story p : String) (st : Status)
    (now : Nat) (r : Request) (h : lookupReq s (story, p) = some r) :
    (update_status s story p st now).1 =
      setReq s (story, p) { r with status := st, updated_at := some now } := by
  simp [update_status, h]

theorem lookup_update_status (s : Store) (story p : String) (st : Status)
    (now : Nat) (r : Request) (h : lookupReq s (story, p) = some r) :
    lookupReq (update_status s story p st now).1 (story, p) =
      some { r with status := st, updated_at := some now } := by
  rw [update_status_store s story p st now r h]
  exact lookup_set_same ..

theorem update_media_images_store (s : Store) (story p path : String)
    (now : Nat) (r : Request) (h : lookupReq s (story, p) = some r) :
    (update_media s story p "images" path now).1 =
      setReq s (story, p)
        { r with images := r.images ++ [path], updated_at := some now } := by
  simp [update_media, h]

theorem update_media_videos_store (s : Store) (story p path : String)
    (now : Nat) (r : Request) (h : lookupReq s (story, p) = some r) :
    (update_media s story p "videos" path now).1 =
      setReq s (story, p)
        { r with videos := r.videos ++ [path], updated_at := some now } := by
  simp [update_media, h]

/-! ## Sorting lemmas for `get_next_approved_post` -/

theorem mem_insertByCreated (r x : Request) (l : List Request) :
    x ∈ insertByCreated r l ↔ x = r ∨ x ∈ l := by
  induction l with
  | nil => simp [insertByCreated]
  | cons a l ih =>
      by_cases h : r.created_at ≤ a.created_at
      · simp [insertByCreated, h]
      · simp [insertByCreated, h, ih]
        tauto

theorem mem_sortByCreated (x : Request) (l : List Request) :
    x ∈ sortByCreated l ↔ x ∈ l := by
  induction l with
  | nil => simp [sortByCreated]
  | cons a l ih => simp [sortByCreated, mem_insertByCreated, ih]

theorem pairwise_insertByCreated (r : Request) (l : List Request)
    (h : l.Pairwise (fun a b => a.created_at ≤ b.created_at)) :
    (insertByCreated r l).Pairwise (fun a b => a.created_at ≤ b.created_at) := by
  induction l with
  | nil => simp [insertByCreated]
  | cons a l ih =>
      rcases List.pairwise_cons.mp h with ⟨ha, hl⟩
      by_cases hle : r.created_at ≤ a.created_at
      · rw [insertByCreated, if_pos hle]
        refine List.pairwise_cons.mpr ⟨?_, h⟩
        intro x hx
        rcases List.mem_cons.mp hx with he | ht
        · exact he ▸ hle
        · exact Nat.le_trans hle (ha x ht)
      · rw [insertByCreated, if_neg hle]
        refine List.pairwise_cons.mpr ⟨?_, ih hl⟩
        intro x hx
        rcases (mem_insertByCreated r x l).mp hx with he | ht
        · exact he ▸ Nat.le_of_not_le hle
        · exact ha x ht

theorem pairwise_sortByCreated (l : List Request) :
    (sortByCreated l).Pairwise (fun a b => a.created_at ≤ b.created_at) := by
  induction l with
  | nil => simp [sortByCreated]
  | cons a l ih => exact pairwise_insertByCreated a (sortByCreated l) ih

theorem sort_head_min (l : List Request) (r : Request) (t : List Request)
    (h : sortByCreated l = r :: t) :
    r ∈ l ∧ ∀ x ∈ l, r.created_at ≤ x.created_at := by
  have hmem : r ∈ l := (mem_sortByCreated r l).mp (h ▸ List.mem_cons_self r t)
  refine ⟨hmem, ?_⟩
  intro x hx
  have hx2 : x ∈ r :: t := h ▸ (mem_sortByCreated x l).mpr hx
  rcases List.mem_cons.mp hx2 with he | ht
  · exact he ▸ Nat.le_refl _
  · have hp := pairwise_sortByCreated l
    rw [h] at hp
    exact (List.pairwise_cons.mp hp).1 x ht

theorem mem_approvedRequests (s : Store) (x : Request) :
    x ∈ approvedRequests s ↔ x ∈ storeRequests s ∧ x.status = Status.APPROVED := by
  simp [approvedRequests, List.mem_filter]

/-! ## Callback lemmas -/

theorem callback_go_cons (story_id action : String) (now : Nat) (a : String)
    (rest : List String) (s : Store) (acc : List Effect) :
    callback_go story_id action now (a :: rest) s acc =
      callback_go story_id action now rest
        (handleCallbackOne s story_id a action now).store
        (acc ++ (handleCallbackOne s story_id a action now).trace) := rfl

theorem settledAt_congr (s1 s2 : Store) (story_id action p : String)
    (h : lookupReq s1 (story_id, p) = lookupReq s2 (story_id, p)) :
    SettledAt s1 story_id action p ↔ SettledAt s2 story_id action p := by
  unfold SettledAt
  rw [h]

theorem lookup_update_status_other (s : Store) (story p : String) (st : Status)
    (now : Nat) (k : Key) (hk : k ≠ (story, p)) :
    lookupReq (update_status s story p st now).1 k = lookupReq s k := by
  unfold update_status
  cases hl : lookupReq s (story, p) with
  | none => rfl
  | some r => exact lookup_set_ne s (story, p) k _ hk

theorem one_settled (s : Store) (story_id p action : String) (now : Nat)
    (h : SettledAt s story_id action p) :
    handleCallbackOne s story_id p action now = ⟨s, [], none⟩ := by
  unfold SettledAt at h
  unfold handleCallbackOne
  cases hl : lookupReq s (story_id, p) with
  | none => rfl
  | some r =>
      rw [hl] at h
      by_cases hst : r.status = Status.PENDING
      · rcases h with h | h
        · exact absurd hst h
        · simp [hst, h.1, h.2.1, h.2.2]
      · simp [hst]

theorem one_store_other (s : Store) (story_id p action : String) (now : Nat)
    (k : Key) (hk : k ≠ (story_id, p)) :
    lookupReq (handleCallbackOne s story_id p action now).store k = lookupReq s k := by
  unfold handleCallbackOne
  cases hl : lookupReq s (story_id, p) with
  | none => rfl
  | some r =>
      by_cases hst : r.status = Status.PENDING
      · by_cases ha : startsWithPy action "approve" = true
        · simp [hst, ha, lookup_update_status_other s story_id p Status.APPROVED now k hk]
        · by_cases hd : startsWithPy action "decline" = true ∨ startsWithPy action "reject" = true
          · simp [hst, ha, hd, lookup_update_status_other s story_id p Status.REJECTED now k hk]
          · simp [hst, ha, hd]
      · simp [hst]

theorem one_settles (s : Store) (story_id p action : String) (now : Nat) :
    SettledAt (handleCallbackOne s story_id p action now).store story_id action p := by
  unfold handleCallbackOne
  cases hl : lookupReq s (story_id, p) with
  | none => simp [SettledAt, hl]
  | some r =>
      by_cases hst : r.status = Status.PENDING
      · by_cases ha : startsWithPy action "approve" = true
        · have h2 := lookup_update_status s story_id p Status.APPROVED now r hl
          simp only [hst, ha]
          simp only [SettledAt]
          simp [hst, ha, h2]
        · by_cases hd : startsWithPy action "decline" = true ∨ startsWithPy action "reject" = true
          · have h2 := lookup_update_status s story_id p Status.REJECTED now r hl
            simp only [SettledAt]
            simp [hst, ha, hd, h2]
          · push_neg at hd
            simp only [SettledAt]
            simp [hst, ha, hd.1, hd.2, hl]
      · simp only [SettledAt]
        simp [hst, hl]

theorem one_preserves_any (s : Store) (story_id p q action : String) (now : Nat)
    (h : SettledAt s story_id action q) :
    SettledAt (handleCallbackOne s story_id p action now).store story_id action q := by
  by_cases hq : q = p
  · subst hq
    exact one_settles s story_id q action now
  · have hk : ((story_id, q) : Key) ≠ (story_id, p) := by
      intro e
      exact hq (congrArg Prod.snd e)
    exact (settledAt_congr _ s story_id action q
      (one_store_other s story_id p action now (story_id, q) hk)).mpr h

theorem go_preserves (story_id action : String) (now : Nat) (ps : List String) :
    ∀ (s : Store) (acc : List Effect) (q : String),
      SettledAt s story_id action q →
      SettledAt (callback_go story_id action now ps s acc).store story_id action q := by
  induction ps with
  | nil => intro s acc q h; exact h
  | cons a rest ih =>
      intro s acc q h
      rw [callback_go_cons]
      exact ih _ _ q (one_preserves_any s story_id a q action now h)

theorem go_settles (story_id action : String) (now : Nat) (ps : List String) :
    ∀ (s : Store) (acc : List Effect) (p : String), p ∈ ps →
      SettledAt (callback_go story_id action now ps s acc).store story_id action p := by
  induction ps with
  | nil => intro s acc p hp; exact absurd hp (List.not_mem_nil p)
  | cons a rest ih =>
      intro s acc p hp
      rw [callback_go_cons]
      rcases List.mem_cons.mp hp with he | ht
      · subst he
        exact go_preserves story_id action now rest _ _ p (one_settles s story_id p action now)
      · exact ih _ _ p ht

theorem go_settled_id (story_id action : String) (now : Nat) (ps : List String) :
    ∀ (s : Store) (acc : List Effect),
      (∀ p ∈ ps, SettledAt s story_id action p) →
      (callback_go story_id action now ps s acc).store = s := by
  induction ps with
  | nil => intro s acc _; rfl
  | cons a rest ih =>
      intro s acc h
      rw [callback_go_cons, one_settled s story_id a action now (h a (List.mem_cons_self a rest))]
      exact ih s _ (fun p hp => h p (List.mem_cons_of_mem a hp))

theorem go_lookup_nochange (story_id action : String) (now : Nat) (ps : List String) :
    ∀ (s : Store) (acc : List Effect) (k : Key) (r : Request),
      lookupReq s k = some r → r.status ≠ Status.PENDING →
      lookupReq (callback_go story_id action now ps s acc).store k = some r := by
  induction ps with
  | nil => intro s acc k r hr _; exact hr
  | cons a rest ih =>
      intro s acc k r hr hst
      rw [callback_go_cons]
      by_cases hk : ((story_id, a) : Key) = k
      · have hset : SettledAt s story_id action a := by
          unfold SettledAt
          rw [hk, hr]
          exact Or.inl hst
        rw [one_settled s story_id a action now hset]
        exact ih s _ k r hr hst
      · have hr2 : lookupReq (handleCallbackOne s story_id a action now).store k = some r := by
          rw [one_store_other s story_id a action now k (fun e => hk e.symm)]
          exact hr
        exact ih _ _ k r hr2 hst

theorem one_trace_no_publish (s : Store) (story_id p action : String) (now : Nat) :
    ∀ e ∈ (handleCallbackOne s story_id p action now).trace, e.isPublish = false := by
  unfold handleCallbackOne
  cases hl : lookupReq s (story_id, p) with
  | none => simp
  | some r =>
      by_cases hst : r.status = Status.PENDING
      · by_cases ha : startsWithPy action "approve" = true
        · by_cases ht : truthyNat (lookupNat r.message_ids p) = true
          · simp [hst, ha, ht, Effect.isPublish]
          · simp [hst, ha, ht]
        · by_cases hd : startsWithPy action "decline" = true ∨ startsWithPy action "reject" = true
          · by_cases ht : truthyNat (lookupNat r.message_ids p) = true
            · simp [hst, ha, hd, ht, Effect.isPublish]
            · simp [hst, ha, hd, ht]
          · simp [hst, ha, hd]
      · simp [hst]

theorem go_trace_no_publish (story_id action : String) (now : Nat) (ps : List String) :
    ∀ (s : Store) (acc : List Effect),
      (∀ e ∈ acc, e.isPublish = false) →
      ∀ e ∈ (callback_go story_id action now ps s acc).trace, e.isPublish = false := by
  induction ps with
  | nil => intro s acc hacc e he; exact hacc e he
  | cons a rest ih =>
      intro s acc hacc e he
      rw [callback_go_cons] at he
      refine ih _ _ ?_ e he
      intro e2 he2
      rcases List.mem_append.mp he2 with h1 | h2
      · exact hacc e2 h1
      · exact one_trace_no_publish s story_id a action now e2 h2

/-! ## Approval-handling lemmas -/

theorem handle_approval_post_trace (pub : PublishOracle) (s : Store)
    (story_id p : String) (now : Nat) (pre : List Effect) :
    ∃ rest, (handle_approval_post pub s story_id p now pre).trace = pre ++ rest := by
  unfold handle_approval_post
  cases hE : execute_approved_post pub
      (update_status s story_id p Status.APPROVED now).1 story_id p now with
  | mk s2 tr exc =>
      cases exc with
      | none => exact ⟨tr ++ [Effect.notifySending p story_id], by simp⟩
      | some e => exact ⟨tr, rfl⟩

theorem handle_approval_with_media (gen : GenOracle) (pub : PublishOracle)
    (s : Store) (story_id p : String) (now : Nat) (r : Request)
    (hr : lookupReq s (story_id, p) = some r)
    (hm : ¬(r.images = [] ∧ r.videos = []))
    (hpub : pub p r.content r.images r.videos = Except.ok true) :
    handle_approval gen pub s story_id p now =
      ⟨(update_status (update_status s story_id p Status.APPROVED now).1
          story_id p Status.POSTED now).1,
       [Effect.publish p r.content r.images r.videos,
        Effect.notifySending p story_id],
       none⟩ := by
  have h2 := lookup_update_status s story_id p Status.APPROVED now r hr
  have hexec : execute_approved_post pub
      (update_status s story_id p Status.APPROVED now).1 story_id p now =
      ⟨(update_status (update_status s story_id p Status.APPROVED now).1
          story_id p Status.POSTED now).1,
       [Effect.publish p r.content r.images r.videos], none⟩ := by
    unfold execute_approved_post
    rw [h2]
    simp [hpub]
  simp only [handle_approval, hr]
  rw [if_neg hm]
  unfold handle_approval_post
  rw [hexec]
  rfl

/-! ## Claim theorems -/

/-- C1 counterexample: a second creation attempt for an occupied
(story_id, platform) key does not fail — it succeeds and replaces the
existing record (the stored content becomes the second request's `"B"`),
contradicting the claim that the existing record is left unchanged and that
only the first creation succeeds. -/
theorem c1_create_overwrites_cex :
    lookupReq c1_second ("s1", "twitter") ≠ lookupReq c1_first ("s1", "twitter") ∧
    (lookupReq c1_second ("s1", "twitter")).map Request.content = some "B" ∧
    (lookupReq c1_first ("s1", "twitter")).map Request.content = some "A" := by
  decide

/-- C1 amended: `add_request` never fails; every creation attempt — first or
subsequent — persists the full request with `status = PENDING` and the
deadline `created_at + timeout`, overwriting any record already stored under
the (story_id, platform) key. -/
theorem add_request_persists_pending :
    ∀ (s : Store) (story p wf c sub : String) (imgs vids : List String)
      (mids : List (String × Nat)) (created tm : Nat),
      lookupReq (add_request s story p wf c sub imgs vids mids created tm) (story, p) =
        some { story_id := story, platform := p, workflow_id := wf, content := c,
               sub_content := sub, images := imgs, videos := vids,
               message_ids := mids, created_at := created,
               timeout_at := created + 60 * tm, status := Status.PENDING,
               updated_at := none } := by
  intro s story p wf c sub imgs vids mids created tm
  exact lookup_set_same ..

/-- C8: neither status updates nor media appends change the identity,
content, creation time or deadline of a record, and the media lists never
shrink — `update_status` leaves both lists untouched and `update_media`
only appends. -/
theorem update_ops_preserve_immutable_fields :
    ∀ (s : Store) (story p kind path : String) (st : Status) (now : Nat)
      (r : Request), lookupReq s (story, p) = some r →
      (∀ r2, lookupReq (update_status s story p st now).1 (story, p) = some r2 →
        r2.story_id = r.story_id ∧ r2.platform = r.platform ∧
        r2.content = r.content ∧ r2.sub_content = r.sub_content ∧
        r2.created_at = r.created_at ∧ r2.timeout_at = r.timeout_at ∧
        r2.images = r.images ∧ r2.videos = r.videos) ∧
      (∀ r2, lookupReq (update_media s story p kind path now).1 (story, p) = some r2 →
        r2.story_id = r.story_id ∧ r2.platform = r.platform ∧
        r2.content = r.content ∧ r2.sub_content = r.sub_content ∧
        r2.created_at = r.created_at ∧ r2.timeout_at = r.timeout_at ∧
        (∃ t, r2.images = r.images ++ t) ∧ (∃ t, r2.videos = r.videos ++ t)) := by
  intro s story p kind path st now r h
  constructor
  · intro r2 h2
    rw [lookup_update_status s story p st now r h] at h2
    cases h2
    simp
  · intro r2 h2
    by_cases hk : kind = "images"
    · subst hk
      rw [update_media_images_store s story p path now r h, lookup_set_same] at h2
      cases h2
      exact ⟨rfl, rfl, rfl, rfl, rfl, rfl, ⟨[path], rfl⟩, ⟨[], by simp⟩⟩
    · by_cases hv : kind = "videos"
      · subst hv
        rw [update_media_videos_store s story p path now r h, lookup_set_same] at h2
        cases h2
        exact ⟨rfl, rfl, rfl, rfl, rfl, rfl, ⟨[], by simp⟩, ⟨[path], rfl⟩⟩
      · have hst : (update_media s story p kind path now).1 =
            setReq s (story, p) { r with updated_at := some now } := by
          simp [update_media, h, hk, hv]
        rw [hst, lookup_set_same] at h2
        cases h2
        exact ⟨rfl, rfl, rfl, rfl, rfl, rfl, ⟨[], by simp⟩, ⟨[], by simp⟩⟩

/-- C8 witness: the general preservation theorem applied to a concrete
one-record store, a status update to `APPROVED` and an image append. -/
theorem update_ops_preserve_immutable_fields_witness :
    (∀ r2, lookupReq (update_status c1_first "s1" "twitter" Status.APPROVED 9).1
        ("s1", "twitter") = some r2 →
      r2.story_id = "s1" ∧ r2.platform = "twitter" ∧
      r2.content = "A" ∧ r2.sub_content = "sumA" ∧
      r2.created_at = 0 ∧ r2.timeout_at = 1800 ∧
      r2.images = ([] : List String) ∧ r2.videos = ([] : List String)) ∧
    (∀ r2, lookupReq (update_media c1_first "s1" "twitter" "images" "pic" 9).1
        ("s1", "twitter") = some r2 →
      r2.story_id = "s1" ∧ r2.platform = "twitter" ∧
      r2.content = "A" ∧ r2.sub_content = "sumA" ∧
      r2.created_at = 0 ∧ r2.timeout_at = 1800 ∧
      (∃ t, r2.images = ([] : List String) ++ t) ∧
      (∃ t, r2.videos = ([] : List String) ++ t)) :=
  update_ops_preserve_immutable_fields c1_first "s1" "twitter" "images" "pic"
    Status.APPROVED 9
    { story_id := "s1", platform := "twitter", workflow_id := "wf1",
      content := "A", sub_content := "sumA", images := [], videos := [],
      message_ids := [], created_at := 0, timeout_at := 1800,
      status := Status.PENDING, updated_at := none } (by decide)

/-- C9: a delay drawn from the configured posting window keeps consecutive
publish attempts at least `min_posting_delay_seconds` and at most
`max_posting_delay_seconds` apart, and the configured window is 10 to 25
minutes. -/
theorem scheduler_pacing_window :
    ∀ t d, min_posting_delay_seconds ≤ d → d ≤ max_posting_delay_seconds →
      (t + min_posting_delay_seconds ≤ scheduler_next_attempt t d ∧
       scheduler_next_attempt t d ≤ t + max_posting_delay_seconds) ∧
      min_posting_delay_seconds = 10 * 60 ∧ max_posting_delay_seconds = 25 * 60 := by
  intro t d h1 h2
  exact ⟨⟨Nat.add_le_add_left h1 t, Nat.add_le_add_left h2 t⟩, rfl, rfl⟩

/-- C9 witness: the pacing theorem at a concrete prior attempt time 1000 and
a concrete sampled delay of 900 seconds. -/
theorem scheduler_pacing_window_witness :
    min_posting_delay_seconds ≤ 900 ∧ 900 ≤ max_posting_delay_seconds ∧
    ((1000 + min_posting_delay_seconds ≤ scheduler_next_attempt 1000 900 ∧
      scheduler_next_attempt 1000 900 ≤ 1000 + max_posting_delay_seconds) ∧
     min_posting_delay_seconds = 10 * 60 ∧ max_posting_delay_seconds = 25 * 60) :=
  ⟨by decide, by decide, scheduler_pacing_window 1000 900 (by decide) (by decide)⟩

/-- C10: `get_posting_status` raises `AttributeError` on
`get_all_pending` (so the `queue` attribute and the status dictionary are
never reached), and the `pending_approvals` entry of `get_service_status`
raises for the same missing attribute; neither `get_all_pending` nor
`queue` is an attribute of `ApprovalQueue`. -/
theorem get_posting_status_attribute_error :
    get_posting_status = Except.error (PyAttrError.attributeError "get_all_pending") ∧
    get_service_status_pending =
      Except.error (PyAttrError.attributeError "get_all_pending") ∧
    "get_all_pending" ∉ approvalQueueAttrs ∧ "queue" ∉ approvalQueueAttrs :=
  ⟨rfl, rfl, by decide, by decide⟩

/-- C3: whatever the order of the stored records (and hence whatever the
order in which they became `APPROVED`), `get_next_approved_post` yields an
`APPROVED` stored record whose `created_at` is smallest among all `APPROVED`
records, yields `none` when no `APPROVED` record exists, and yields a record
whenever one exists. -/
theorem get_next_approved_post_fifo :
    ∀ s : Store,
      (∀ r, get_next_approved_post s = some r →
        r.status = Status.APPROVED ∧ r ∈ storeRequests s ∧
        ∀ x ∈ storeRequests s, x.status = Status.APPROVED →
          r.created_at ≤ x.created_at) ∧
      ((∀ x ∈ storeRequests s, x.status ≠ Status.APPROVED) →
        get_next_approved_post s = none) ∧
      ((∃ x ∈ storeRequests s, x.status = Status.APPROVED) →
        ∃ r, get_next_approved_post s = some r) := by
  intro s
  rcases hs : sortByCreated (approvedRequests s) with _ | ⟨r0, t⟩
  · have hemp : approvedRequests s = [] := by
      rcases he : approvedRequests s with _ | ⟨a, l⟩
      · rfl
      · have : a ∈ sortByCreated (approvedRequests s) :=
          (mem_sortByCreated a _).mpr (he ▸ List.mem_cons_self a l)
        rw [hs] at this
        exact absurd this (List.not_mem_nil a)
    refine ⟨?_, ?_, ?_⟩
    · intro r hr
      rw [get_next_approved_post, hs] at hr
      exact absurd hr (by simp)
    · intro _
      rw [get_next_approved_post, hs]
    · rintro ⟨x, hx, hxs⟩
      have : x ∈ approvedRequests s := (mem_approvedRequests s x).mpr ⟨hx, hxs⟩
      rw [hemp] at this
      exact absurd this (List.not_mem_nil x)
  · have hmin := sort_head_min (approvedRequests s) r0 t hs
    refine ⟨?_, ?_, ?_⟩
    · intro r hr
      rw [get_next_approved_post, hs] at hr
      cases hr
      rcases (mem_approvedRequests s r0).mp hmin.1 with ⟨hmem, happ⟩
      refine ⟨happ, hmem, ?_⟩
      intro x hx hxs
      exact hmin.2 x ((mem_approvedRequests s x).mpr ⟨hx, hxs⟩)
    · intro hall
      rcases (mem_approvedRequests s r0).mp hmin.1 with ⟨hmem, happ⟩
      exact absurd happ (hall r0 hmem)
    · intro _
      exact ⟨r0, by rw [get_next_approved_post, hs]⟩

/-- C3 witness: on the concrete store the selection theorem applies to the
record actually returned (the `APPROVED` one created at 20, not the earlier
approved-listed one created at 50 and not the earlier-created `PENDING`
one), establishing that it is `APPROVED` and minimal by `created_at` among
the `APPROVED` records. -/
theorem get_next_approved_post_fifo_witness :
    c3_r7.status = Status.APPROVED ∧ c3_r7 ∈ storeRequests c3_store ∧
    ∀ x ∈ storeRequests c3_store, x.status = Status.APPROVED →
      c3_r7.created_at ≤ x.created_at :=
  (get_next_approved_post_fifo c3_store).1 c3_r7 (by decide)

/-- C4: an approve or reject action delivered for a record that is no longer
`PENDING` (a duplicate approval click, or an approve arriving after the
timeout already auto-approved) is a no-op — the record is unchanged, the
callback handler never calls the publish boundary, and running the same
callback a second time leaves the store exactly as after the first run. -/
theorem callback_stale_noop :
    ∀ (s : Store) (story_id : String) (pf : Option String) (action : String)
      (now : Nat) (p : String) (r : Request),
      lookupReq s (story_id, p) = some r → r.status ≠ Status.PENDING →
      lookupReq (handle_telegram_callback s story_id pf action now).store
          (story_id, p) = some r ∧
      (∀ e ∈ (handle_telegram_callback s story_id pf action now).trace,
        e.isPublish = false) ∧
      (handle_telegram_callback
          (handle_telegram_callback s story_id pf action now).store
          story_id pf action now).store =
        (handle_telegram_callback s story_id pf action now).store := by
  intro s story_id pf action now p r hr hst
  refine ⟨?_, ?_, ?_⟩
  · exact go_lookup_nochange story_id action now (callbackPlatforms pf action)
      s [] (story_id, p) r hr hst
  · exact go_trace_no_publish story_id action now (callbackPlatforms pf action)
      s [] (by intro e he; exact absurd he (List.not_mem_nil e))
  · unfold handle_telegram_callback
    apply go_settled_id
    intro q hq
    exact go_settles story_id action now (callbackPlatforms pf action) s [] q hq

/-- C4 witness: the no-op theorem applied to a concrete store whose single
record is already `APPROVED` and to a duplicate `approve` callback for it. -/
theorem callback_stale_noop_witness :
    lookupReq (handle_telegram_callback c4_store "s1" (some "twitter") "approve" 99).store
        ("s1", "twitter") = some c4_req ∧
    (∀ e ∈ (handle_telegram_callback c4_store "s1" (some "twitter") "approve" 99).trace,
      e.isPublish = false) ∧
    (handle_telegram_callback
        (handle_telegram_callback c4_store "s1" (some "twitter") "approve" 99).store
        "s1" (some "twitter") "approve" 99).store =
      (handle_telegram_callback c4_store "s1" (some "twitter") "approve" 99).store :=
  callback_stale_noop c4_store "s1" (some "twitter") "approve" 99 "twitter" c4_req
    (by decide) (by decide)

/-- C5 counterexample: when the publish boundary raises, the exception is
not caught inside `_execute_approved_post` — it propagates, no status is
written back, and the record remains `APPROVED` instead of being marked
`FAILED`, contradicting the claim that an exception is caught, the record is
marked `FAILED` and a terminal status is always written. -/
theorem execute_post_exception_cex :
    (execute_approved_post pub_raises c5_store "s1" "twitter" 7).exc = some "boom" ∧
    (execute_approved_post pub_raises c5_store "s1" "twitter" 7).store = c5_store ∧
    lookupReq c5_store ("s1", "twitter") = some c5_req ∧
    c5_req.status = Status.APPROVED := by
  decide

/-- C5 amended: on an `APPROVED` record, a publish boundary return of
success writes `POSTED` back and a return of failure writes `FAILED` back,
in both cases after a single publish call; a raise from the publish call
propagates out of `_execute_approved_post` with no status written, leaving
the record `APPROVED` (the surrounding timeout loop catches the exception
but does not mark the record terminal). -/
theorem execute_post_outcomes :
    ∀ (pub : PublishOracle) (s : Store) (story p : String) (now : Nat)
      (r : Request) (res : Except PyExc Bool),
      lookupReq s (story, p) = some r → r.status = Status.APPROVED →
      pub p r.content r.images r.videos = res →
      match res with
      | Except.ok b =>
          lookupReq (execute_approved_post pub s story p now).store (story, p) =
            some { r with status := (if b then Status.POSTED else Status.FAILED), updated_at := some now } ∧
          (execute_approved_post pub s story p now).exc = none ∧
          Effect.publish p r.content r.images r.videos ∈
            (execute_approved_post pub s story p now).trace
      | Except.error e =>
          (execute_approved_post pub s story p now).store = s ∧
          (execute_approved_post pub s story p now).exc = some e := by
  intro pub s story p now r res hr hst hres
  cases res with
  | ok b =>
      refine ⟨?_, ?_, ?_⟩ <;>
        simp [execute_approved_post, hr, hst, hres,
          lookup_update_status s story p (if b then Status.POSTED else Status.FAILED) now r hr]
  | error e =>
      refine ⟨?_, ?_⟩ <;> simp [execute_approved_post, hr, hst, hres]

/-- C5 witness: the outcome theorem at a concrete `APPROVED` record and a
publish boundary returning failure — the record is written back `FAILED`
after one publish call. -/
theorem execute_post_outcomes_witness :
    lookupReq (execute_approved_post pub_false c5_store "s1" "twitter" 7).store
        ("s1", "twitter") =
      some { c5_req with status := Status.FAILED, updated_at := some 7 } ∧
    (execute_approved_post pub_false c5_store "s1" "twitter" 7).exc = none ∧
    Effect.publish "twitter" c5_req.content c5_req.images c5_req.videos ∈
      (execute_approved_post pub_false c5_store "s1" "twitter" 7).trace :=
  execute_post_outcomes pub_false c5_store "s1" "twitter" 7 c5_req (Except.ok false)
    (by decide) (by decide) rfl

/-- C6: when the record being approved has no images and no videos, the
media fallback is invoked strictly before any publish call, and a failed
fallback marks the record `FAILED`, emits the failure notification, and
makes no publish call at all. -/
theorem fallback_guards_publish :
    ∀ (gen : GenOracle) (pub : PublishOracle) (s : Store) (story_id p : String)
      (now : Nat) (r : Request),
      lookupReq s (story_id, p) = some r → r.images = [] → r.videos = [] →
      (∃ l1 l2, (handle_approval gen pub s story_id p now).trace =
          l1 ++ Effect.fallbackGen story_id p :: l2 ∧
          ∀ e ∈ l1, e.isPublish = false) ∧
      (gen r.content r.sub_content story_id p r.workflow_id = none →
        lookupReq (handle_approval gen pub s story_id p now).store (story_id, p) =
          some { r with status := Status.FAILED, updated_at := some now } ∧
        Effect.notifyGenFailed p ∈ (handle_approval gen pub s story_id p now).trace ∧
        ∀ e ∈ (handle_approval gen pub s story_id p now).trace,
          e.isPublish = false) := by
  intro gen pub s story_id p now r hr hi hv
  cases hg : gen r.content r.sub_content story_id p r.workflow_id with
  | some url =>
      have hred : handle_approval gen pub s story_id p now =
          handle_approval_post pub (update_media s story_id p "images" url now).1
            story_id p now
            [Effect.notifyGenerating p, Effect.fallbackGen story_id p] := by
        simp [handle_approval, hr, hi, hv, hg]
      constructor
      · rcases handle_approval_post_trace pub
          (update_media s story_id p "images" url now).1 story_id p now
          [Effect.notifyGenerating p, Effect.fallbackGen story_id p] with ⟨rest, hrest⟩
        rw [hred, hrest]
        exact ⟨[Effect.notifyGenerating p], rest, rfl, by simp [Effect.isPublish]⟩
      · intro hgen
        exact absurd hgen (by simp)
  | none =>
      have hred : handle_approval gen pub s story_id p now =
          ⟨(update_status s story_id p Status.FAILED now).1,
           [Effect.notifyGenerating p, Effect.fallbackGen story_id p,
            Effect.notifyGenFailed p], none⟩ := by
        simp [handle_approval, hr, hi, hv, hg]
      constructor
      · rw [hred]
        exact ⟨[Effect.notifyGenerating p], [Effect.notifyGenFailed p], rfl,
          by simp [Effect.isPublish]⟩
      · intro _
        rw [hred]
        refine ⟨lookup_update_status s story_id p Status.FAILED now r hr, by simp, ?_⟩
        intro e he
        simp at he
        rcases he with h | h | h <;> subst h <;> rfl

/-- C6 witness: the fallback theorem on a concrete store whose only record
has no media, with a fallback boundary that fails — the record ends
`FAILED`, the failure is notified, and no publish call appears in the
trace. -/
theorem fallback_guards_publish_witness :
    (∃ l1 l2, (handle_approval gen_none pub_true c6_store "s6" "twitter" 20).trace =
        l1 ++ Effect.fallbackGen "s6" "twitter" :: l2 ∧
        ∀ e ∈ l1, e.isPublish = false) ∧
    (lookupReq (handle_approval gen_none pub_true c6_store "s6" "twitter" 20).store
        ("s6", "twitter") =
      some { c6_req with status := Status.FAILED, updated_at := some 20 } ∧
    Effect.notifyGenFailed "twitter" ∈
      (handle_approval gen_none pub_true c6_store "s6" "twitter" 20).trace ∧
    ∀ e ∈ (handle_approval gen_none pub_true c6_store "s6" "twitter" 20).trace,
      e.isPublish = false) :=
  ⟨(fallback_guards_publish gen_none pub_true c6_store "s6" "twitter" 20 c6_req
      (by decide) rfl rfl).1,
   (fallback_guards_publish gen_none pub_true c6_store "s6" "twitter" 20 c6_req
      (by decide) rfl rfl).2 rfl⟩

/-- C2 counterexample: on a store whose only record is `PENDING` with media
and past its deadline, handling the deadline-elapsed event drives the record
all the way to `POSTED` and the trace contains a publish call — not the
explicit-approval transition to `APPROVED` with no publish that the claim
states. -/
theorem check_timeouts_publishes_cex :
    lookupReq c2_store ("s2", "twitter") = some c2_req ∧
    c2_req.status = Status.PENDING ∧ c2_req.timeout_at ≤ 20 ∧
    (lookupReq (check_timeouts gen_none pub_true c2_store 20).store
        ("s2", "twitter")).map Request.status = some Status.POSTED ∧
    Effect.publish "twitter" "hd2" ["i1"] [] ∈
      (check_timeouts gen_none pub_true c2_store 20).trace := by
  decide

/-- C2 amended: handling the deadline-elapsed event is not the
explicit-approval transition — for a timed-out `PENDING` record with media
and a truthy message id, `check_timeouts` marks it `APPROVED` and then
immediately executes the publish itself, leaving the record terminal
(`POSTED` when the boundary succeeds) with a publish call in its trace,
whereas the explicit approval callback on the same store only marks the
record `APPROVED` and makes no publish call. -/
theorem check_timeouts_executes_publish :
    ∀ (gen : GenOracle) (pub : PublishOracle) (s : Store) (now : Nat)
      (r : Request),
      get_timed_out_requests s now = [r] →
      lookupReq s (r.story_id, r.platform) = some r →
      truthyNat (lookupNat r.message_ids r.platform) = true →
      r.images ≠ [] →
      pub r.platform r.content r.images r.videos = Except.ok true →
      lookupReq (check_timeouts gen pub s now).store (r.story_id, r.platform) =
        some { r with status := Status.POSTED, updated_at := some now } ∧
      Effect.publish r.platform r.content r.images r.videos ∈
        (check_timeouts gen pub s now).trace ∧
      lookupReq (handle_telegram_callback s r.story_id (some r.platform)
          "approve" now).store (r.story_id, r.platform) =
        some { r with status := Status.APPROVED, updated_at := some now } ∧
      (∀ e ∈ (handle_telegram_callback s r.story_id (some r.platform)
          "approve" now).trace, e.isPublish = false) := by
  intro gen pub s now r h1 hr htr hi hpub
  have hrmem : r ∈ get_timed_out_requests s now := by
    rw [h1]
    exact List.mem_cons_self r []
  have hrP : r.status = Status.PENDING := by
    unfold get_timed_out_requests at hrmem
    rcases List.mem_filter.mp hrmem with ⟨_, hp⟩
    exact (of_decide_eq_true hp).1
  have hm : ¬(r.images = [] ∧ r.videos = []) := fun h => hi h.1
  have hred := handle_approval_with_media gen pub s r.story_id r.platform now r hr hm hpub
  have hgo : check_timeouts gen pub s now =
      ⟨(update_status (update_status s r.story_id r.platform Status.APPROVED now).1
          r.story_id r.platform Status.POSTED now).1,
       [Effect.notifyTimeout r.platform,
        Effect.publish r.platform r.content r.images r.videos,
        Effect.notifySending r.platform r.story_id],
       none⟩ := by
    unfold check_timeouts
    rw [h1]
    unfold check_timeouts_go
    rw [if_pos htr, hred]
    rfl
  have h2 := lookup_update_status s r.story_id r.platform Status.APPROVED now r hr
  refine ⟨?_, ?_, ?_, ?_⟩
  · rw [hgo]
    exact lookup_update_status _ r.story_id r.platform Status.POSTED now
      { r with status := Status.APPROVED, updated_at := some now } h2
  · rw [hgo]
    simp
  · have hcb : callbackPlatforms (some r.platform) "approve" = [r.platform] := by
      unfold callbackPlatforms
      rw [if_neg (by decide)]
    have hsw : (startsWithPy "approve" "approve") = true := by decide
    have hone : (handleCallbackOne s r.story_id r.platform "approve" now).store =
        (update_status s r.story_id r.platform Status.APPROVED now).1 := by
      simp [handleCallbackOne, hr, hrP, hsw]
    unfold handle_telegram_callback
    rw [hcb, callback_go_cons, hone]
    exact h2
  · exact go_trace_no_publish r.story_id "approve" now
      (callbackPlatforms (some r.platform) "approve") s []
      (by intro e he; exact absurd he (List.not_mem_nil e))

/-- C2 witness: the amended theorem on the concrete timed-out store — the
timeout path ends `POSTED` with a publish call while the explicit approval
on the same store ends `APPROVED` without one. -/
theorem check_timeouts_executes_publish_witness :
    lookupReq (check_timeouts gen_some pub_true c2_store 20).store
        ("s2", "twitter") =
      some { c2_req with status := Status.POSTED, updated_at := some 20 } ∧
    Effect.publish "twitter" c2_req.content c2_req.images c2_req.videos ∈
      (check_timeouts gen_some pub_true c2_store 20).trace ∧
    lookupReq (handle_telegram_callback c2_store "s2" (some "twitter")
        "approve" 20).store ("s2", "twitter") =
      some { c2_req with status := Status.APPROVED, updated_at := some 20 } ∧
    (∀ e ∈ (handle_telegram_callback c2_store "s2" (some "twitter")
        "approve" 20).trace, e.isPublish = false) :=
  check_timeouts_executes_publish gen_some pub_true c2_store 20 c2_req
    (by decide) (by decide) (by decide) (by decide) rfl

/-- C7 counterexample: with an overlay boundary whose transform fails, the
webhook path stores the supplied URL itself as the first image — the stored
first image is not an output of the overlay transform (which produced
none) — and on the batch path a first image is never appended at all
(the overlay call raises `TypeError` for the missing `workflow_id` argument
and the `except` swallows it), so on neither path is the first appended
image always the overlay output. -/
theorem first_image_not_overlay_cex :
    lookupReq c7_store ("s7x", "twitter") = some c7_req ∧
    c7_req.images = [] ∧
    (lookupReq (handle_webhook_upload ov_fail c7_store "s7x" "twitter"
        "orig.jpg" "image" "w" 5) ("s7x", "twitter")).map Request.images =
      some ["orig.jpg"] ∧
    ov_fail "orig.jpg" "s7x" "twitter" c7_req.content c7_req.sub_content "w" = none ∧
    handle_media_add up_some c7_store "s7x" "twitter" "local.jpg" "image" "w" 5 =
      c7_store := by
  decide

/-- C7 amended: the first image triggers the overlay transform; on the
webhook path the transform output is stored when the transform succeeds and
the original URL is stored when it fails, while on the batch path the
overlay call itself fails (`TypeError`: missing `workflow_id`) and nothing
is appended; every subsequent image or video bypasses the overlay — the
webhook path stores the URL verbatim and the batch path stores the hosted
upload result. -/
theorem media_append_overlay_behavior :
    ∀ (ov : OverlayOracle) (up : UploadOracle) (s : Store)
      (story_id p u wf : String) (now : Nat) (r : Request),
      lookupReq s (story_id, p) = some r →
      (∀ v, r.images = [] → ov u story_id p r.content r.sub_content wf = some v →
        (lookupReq (handle_webhook_upload ov s story_id p u "image" wf now)
            (story_id, p)).map Request.images = some (r.images ++ [v])) ∧
      (r.images = [] → ov u story_id p r.content r.sub_content wf = none →
        (lookupReq (handle_webhook_upload ov s story_id p u "image" wf now)
            (story_id, p)).map Request.images = some (r.images ++ [u])) ∧
      (r.images ≠ [] →
        (lookupReq (handle_webhook_upload ov s story_id p u "image" wf now)
            (story_id, p)).map Request.images = some (r.images ++ [u])) ∧
      ((lookupReq (handle_webhook_upload ov s story_id p u "video" wf now)
          (story_id, p)).map Request.videos = some (r.videos ++ [u])) ∧
      (r.images = [] → handle_media_add up s story_id p u "image" wf now = s) ∧
      (∀ w, r.images ≠ [] → up u "image" wf story_id p = some w →
        (lookupReq (handle_media_add up s story_id p u "image" wf now)
            (story_id, p)).map Request.images = some (r.images ++ [w])) ∧
      (∀ w, up u "video" wf story_id p = some w →
        (lookupReq (handle_media_add up s story_id p u "video" wf now)
            (story_id, p)).map Request.videos = some (r.videos ++ [w])) := by
  intro ov up s story_id p u wf now r hr
  have hvne : ¬("image" : String) = "video" := by decide
  have hine : ¬("video" : String) = "image" := by decide
  refine ⟨?_, ?_, ?_, ?_, ?_, ?_, ?_⟩
  · intro v hi hov
    simp only [handle_webhook_upload, hr]
    simp only [hi, if_neg hvne, hov]
    simp only [if_pos (⟨trivial, trivial⟩ : True ∧ True)]
    rw [update_media_images_store s story_id p v now r hr, lookup_set_same]
    simp [hi]
  · intro hi hov
    simp only [handle_webhook_upload, hr]
    simp only [hi, if_neg hvne, hov]
    simp only [if_pos (⟨trivial, trivial⟩ : True ∧ True)]
    rw [update_media_images_store s story_id p u now r hr, lookup_set_same]
    simp [hi]
  · intro hi
    simp only [handle_webhook_upload, hr]
    simp only [if_neg (fun h => hi h.2 : ¬(True ∧ r.images = [])), if_neg hvne]
    rw [update_media_images_store s story_id p u now r hr, lookup_set_same]
    rfl
  · simp only [handle_webhook_upload, hr]
    simp only [if_neg (fun h => absurd h.1 hine : ¬(("video" : String) = "image" ∧ r.images = [])),
      if_pos (trivial : True)]
    rw [update_media_videos_store s story_id p u now r hr, lookup_set_same]
    rfl
  · intro hi
    simp only [handle_media_add, hr]
    simp only [hi]
    simp only [if_pos (⟨trivial, trivial⟩ : True ∧ True)]
  · intro w hi hup
    simp only [handle_media_add, hr]
    simp only [if_neg (fun h => hi h.2 : ¬(True ∧ r.images = [])), if_neg hvne, hup]
    rw [update_media_images_store s story_id p w now r hr, lookup_set_same]
    rfl
  · intro w hup
    simp only [handle_media_add, hr]
    simp only [if_neg (fun h => absurd h.1 hine : ¬(("video" : String) = "image" ∧ r.images = [])),
      if_pos (trivial : True), hup]
    rw [update_media_videos_store s story_id p w now r hr, lookup_set_same]
    rfl

/-- C7 witness: the amended theorem evaluated on concrete stores — overlay
output stored for a successful first-image transform, nothing appended on
the batch first-image path, verbatim and upload-result storage for
subsequent media. -/
theorem media_append_overlay_behavior_witness :
    (lookupReq (handle_webhook_upload ov_some c7_store "s7x" "twitter"
        "orig.jpg" "image" "w" 5) ("s7x", "twitter")).map Request.images =
      some (c7_req.images ++ ["ov.jpg"]) ∧
    handle_media_add up_some c7_store "s7x" "twitter" "local.jpg" "image" "w" 5 =
      c7_store ∧
    (lookupReq (handle_webhook_upload ov_some c7b_store "s7y" "twitter"
        "orig.jpg" "image" "w" 5) ("s7y", "twitter")).map Request.images =
      some (c7b_req.images ++ ["orig.jpg"]) ∧
    (lookupReq (handle_media_add up_some c7b_store "s7y" "twitter"
        "local.jpg" "image" "w" 5) ("s7y", "twitter")).map Request.images =
      some (c7b_req.images ++ ["up.jpg"]) ∧
    (lookupReq (handle_webhook_upload ov_some c7b_store "s7y" "twitter"
        "v.mp4" "video" "w" 5) ("s7y", "twitter")).map Request.videos =
      some (c7b_req.videos ++ ["v.mp4"]) :=
  ⟨(media_append_overlay_behavior ov_some up_some c7_store "s7x" "twitter"
      "orig.jpg" "w" 5 c7_req (by decide)).1 "ov.jpg" rfl rfl,
   (media_append_overlay_behavior ov_some up_some c7_store "s7x" "twitter"
      "local.jpg" "w" 5 c7_req (by decide)).2.2.2.2.1 rfl,
   (media_append_overlay_behavior ov_some up_some c7b_store "s7y" "twitter"
      "orig.jpg" "w" 5 c7b_req (by decide)).2.2.1 (by decide),
   (media_append_overlay_behavior ov_some up_some c7b_store "s7y" "twitter"
      "local.jpg" "w" 5 c7b_req (by decide)).2.2.2.2.2.1 "up.jpg" (by decide) rfl,
   (media_append_overlay_behavior ov_some up_some c7b_store "s7y" "twitter"
      "v.mp4" "w" 5 c7b_req (by decide)).2.2.2.1⟩

end AIONews
